import Mathlib

/-!
Shallow embedding of `zerver/lib/zulip_update_announcements.py`: the Zulip
update-announcement rollout engine.  Pure data (the announcement catalog),
the per-realm decision function `send_zulip_update_announcements_to_realm`,
the atomic commit `send_messages_and_update_level`, and the sweep
`send_zulip_update_announcements` are translated from the source; external
collaborators (message transport, topic lookup, translation) are modelled as
explicit state or function parameters.
-/

namespace ZulipUpdates

/-- Catalog entry: a level together with its announcement body. -/
structure ZulipUpdateAnnouncement where
  level : Nat
  message : String
deriving Repr, DecidableEq

/-- The module-level catalog `zulip_update_announcements` from the source.
The levels are exactly those of the source (1 through 6, in order).  The
message bodies are long Markdown texts whose content no verified property
inspects; they are abridged here to their opening words, each still distinct. -/
def zulip_update_announcements : List ZulipUpdateAnnouncement := [
  { level := 1,
    message := "Zulip is introducing Zulip updates! To help you learn about new features and configuration options, this topic will receive messages about important changes in Zulip. (body abridged)" },
  { level := 2,
    message := "Web and desktop updates: when you paste content into the compose box, Zulip will now do its best to preserve the formatting. (body abridged)" },
  { level := 3,
    message := "The All messages view has been renamed to Combined feed. (body abridged)" },
  { level := 4,
    message := "To simplify Zulip for new users, Streams have been renamed to Channels. (body abridged)" },
  { level := 5,
    message := "Web and desktop updates: use the new Reactions view to see how others have reacted to your messages. (body abridged)" },
  { level := 6,
    message := "Web and desktop updates: you can now configure whether channel links in the left sidebar go to the most recent topic. (body abridged)" }]

/-- `get_latest_zulip_update_announcements_level` reads
`zulip_update_announcements[-1].level`; Python index -1 is the last element.
The fallback 0 is unreachable (the catalog is a non-empty literal; Python
would raise IndexError on an empty list). -/
def get_latest_zulip_update_announcements_level : Nat :=
  match zulip_update_announcements.getLast? with
  | some a => a.level
  | none => 0

/-- Modelled from the spec: `remove_single_newlines` lives in
`zerver/lib/message.py`, outside the file under analysis, and the spec puts
message formatting out of scope ("message transport/formatting" is an
external collaborator whose bodies are "opaque text payloads").  It is
modelled as the identity on the opaque body text. -/
def remove_single_newlines (s : String) : String := s

/-- Python list subscription `xs[i]` for a possibly negative `Int` index:
a non-negative index reads from the front, a negative index `i` reads
element `len + i` when that is non-negative, and everything else raises
IndexError (modelled as `none`). -/
def pyListGet {α : Type} (xs : List α) (i : Int) : Option α :=
  if 0 ≤ i then xs.get? i.toNat
  else if 0 ≤ i + xs.length then xs.get? (i + xs.length).toNat
  else none

/-- `get_zulip_update_announcements_message_for_level` evaluates
`zulip_update_announcements[level - 1]` with Python indexing semantics and
applies `remove_single_newlines` to the body.  `none` models the IndexError
raised when the subscription is out of range. -/
def get_zulip_update_announcements_message_for_level (level : Int) : Option String :=
  (pyListGet zulip_update_announcements (level - 1)).map
    (fun a => remove_single_newlines a.message)

/-- One `RealmAuditLog` row for a `zulip_update_announcements_level` property
change: `extra_data` holds the old level (null for the onboarding event), the
new level and the sent message ids; `event_time` is the creation time. -/
structure AuditEvent where
  oldValue : Option Nat
  newValue : Nat
  eventTime : Int
  messageIds : List Nat
deriving Repr, DecidableEq

/-- The per-realm state the engine reads and writes.  `level` is the realm
column `zulip_update_announcements_level` (null means never initialized);
`hasStream` is whether `zulip_update_announcements_stream` is set;
`topicHasMessages` models the `messages_for_topic(...).exists()` lookup for
the announcements topic; `auditLog` is the realm's audit rows for this
property, in creation order; `deactivated` and `isSystemBotRealm` are the
eligibility-filter columns. -/
structure RealmState where
  level : Option Nat
  hasStream : Bool
  topicHasMessages : Bool
  auditLog : List AuditEvent
  deactivated : Bool
  isSystemBotRealm : Bool
deriving Repr, DecidableEq

/-- `get_realms_behind_zulip_update_announcements_level`: non-deactivated,
non-system-bot realms whose level is null or strictly below the threshold. -/
def realm_is_behind (threshold : Nat) (r : RealmState) : Bool :=
  (match r.level with
   | none => true
   | some l => decide (l < threshold))
  && !r.deactivated && !r.isSystemBotRealm

/-- The eligibility query, over an explicit directory of realms. -/
def get_realms_behind_zulip_update_announcements_level
    (threshold : Nat) (realms : List RealmState) : List RealmState :=
  realms.filter (realm_is_behind threshold)

/-- `get_level_none_to_initial_auditlog`: the first audit row whose recorded
old value is null — the event marking the transition away from "never
initialized". -/
def get_level_none_to_initial_auditlog (r : RealmState) : Option AuditEvent :=
  r.auditLog.find? (fun ev => ev.oldValue.isNone)

/-- `is_group_direct_message_sent_to_admins_within_days`: asserts the
onboarding audit row exists (`none` models the AssertionError), then compares
`timezone_now() - event_time < timedelta(days=days)`.  Time is in seconds, so
`timedelta(days=d)` is `d * 86400`. -/
def is_group_direct_message_sent_to_admins_within_days
    (now : Int) (r : RealmState) (days : Nat) : Option Bool :=
  match get_level_none_to_initial_auditlog r with
  | none => none
  | some ev => some (decide (now - ev.eventTime < (days : Int) * 86400))

/-- Outbound message requests, by audience and content kind.  The admin group
direct message (`internal_prep_group_direct_message_for_old_realm`, whose
text varies with whether a stream is configured), the one-time introductory
topic message, and the catalog announcement for one level (whose body is
`get_zulip_update_announcements_message_for_level level`). -/
inductive Message where
  | groupDM (streamConfigured : Bool)
  | intro
  | announcement (level : Nat)
deriving Repr, DecidableEq

/-- Whether a message request is posted to the announcements topic (used to
track `topicHasMessages` across a commit). -/
def Message.isStream : Message → Bool
  | .groupDM _ => false
  | .intro => true
  | .announcement _ => true

/-- `internal_prep_zulip_update_announcements_stream_messages`: the while
loop appending one announcement per level from `current_level + 1` up to
`latest_level`, in increasing order. -/
def internal_prep_zulip_update_announcements_stream_messages
    (current_level latest_level : Nat) : List Message :=
  if current_level < latest_level then
    Message.announcement (current_level + 1) ::
      internal_prep_zulip_update_announcements_stream_messages
        (current_level + 1) latest_level
  else []
termination_by latest_level - current_level
decreasing_by omega

/-- Why a per-realm cycle fails: the post-refetch assertion that the level is
null or behind the latest level; the assertion inside
`is_group_direct_message_sent_to_admins_within_days` that the onboarding
audit row exists; or a transport failure inside the atomic commit. -/
inductive RunError where
  | staleLevel
  | noOnboardingAudit
  | sendFailed
deriving Repr, DecidableEq

/-- A successful per-realm cycle: the committed realm state and the message
requests that were sent (empty for a no-op cycle). -/
structure RunOutcome where
  newState : RealmState
  sent : List Message
deriving Repr, DecidableEq

/-- Transport: `do_send_messages`, returning the delivered message ids in
send order, or `none` for a send failure. -/
def Transport : Type := List Message → Option (List Nat)

/-- A reliable transport that delivers every request. -/
def okSend : Transport := fun msgs => some (List.range msgs.length)

/-- A transport that fails on every non-empty batch. -/
def failSend : Transport := fun _ => none

/-- `send_messages_and_update_level`, a `transaction.atomic` unit: send the
requests (skipped entirely when the list is empty), then create one audit row
recording old level, new level and the sent ids, then update the realm
level.  A send failure raises out of the transaction, so nothing is written:
`.error .sendFailed` with no state change. -/
def send_messages_and_update_level (doSend : Transport) (now : Int)
    (realm : RealmState) (new_zulip_update_announcements_level : Nat)
    (send_message_requests : List Message) : Except RunError RunOutcome :=
  match (if send_message_requests.isEmpty then some [] else doSend send_message_requests) with
  | none => .error .sendFailed
  | some sent_message_ids =>
    .ok {
      newState := { realm with
        auditLog := realm.auditLog ++
          [{ oldValue := realm.level,
             newValue := new_zulip_update_announcements_level,
             eventTime := now,
             messageIds := sent_message_ids }],
        level := some new_zulip_update_announcements_level,
        topicHasMessages := realm.topicHasMessages ||
          send_message_requests.any Message.isStream },
      sent := send_message_requests }

/-- The stream-configured sending branch: prepend the one-time introductory
message when the announcements topic has no messages, append the catalog
messages for levels `current + 1 .. latest`, and commit at `latest`. -/
def send_catch_up_messages (doSend : Transport) (now : Int)
    (realm : RealmState) (current latest : Nat) : Except RunError RunOutcome :=
  send_messages_and_update_level doSend now realm latest
    ((if realm.topicHasMessages then [] else [Message.intro]) ++
      internal_prep_zulip_update_announcements_stream_messages current latest)

/-- `send_zulip_update_announcements_to_realm`: refresh the realm (identity
in this sequential model), assert the level is null or behind latest, then
branch: never-initialized realms get one admin group DM and land at level 0
(or at latest when imported from another product); realms without a stream
silently advance to latest unless still inside the 7-day grace window from
the onboarding audit event; otherwise send the catch-up batch, except that a
level-0 realm inside 24 hours of onboarding waits unless `skip_delay` — the
24-hour check calls `is_group_direct_message_sent_to_admins_within_days`
(which asserts the onboarding row exists) before consulting `skip_delay`,
mirroring the evaluation order of the Python conjunction. -/
def send_zulip_update_announcements_to_realm (doSend : Transport) (now : Int)
    (skip_delay : Bool) (realm_imported_from_other_product : Bool)
    (realm : RealmState) : Except RunError RunOutcome :=
  match realm.level with
  | none =>
    send_messages_and_update_level doSend now realm
      (if realm_imported_from_other_product then
        get_latest_zulip_update_announcements_level
      else 0)
      [Message.groupDM realm.hasStream]
  | some l =>
    if l < get_latest_zulip_update_announcements_level then
      if realm.hasStream then
        if l = 0 then
          match is_group_direct_message_sent_to_admins_within_days now realm 1 with
          | none => .error .noOnboardingAudit
          | some withinDelay =>
            if withinDelay && !skip_delay then .ok { newState := realm, sent := [] }
            else send_catch_up_messages doSend now realm l
              get_latest_zulip_update_announcements_level
        else
          send_catch_up_messages doSend now realm l
            get_latest_zulip_update_announcements_level
      else
        match get_level_none_to_initial_auditlog realm with
        | none =>
          send_messages_and_update_level doSend now realm
            get_latest_zulip_update_announcements_level []
        | some ev =>
          if now - ev.eventTime < 7 * 86400 then .ok { newState := realm, sent := [] }
          else
            send_messages_and_update_level doSend now realm
              get_latest_zulip_update_announcements_level []
    else .error .staleLevel

/-- One sweep step: the try/except body of `send_zulip_update_announcements`.
An exception for one realm is caught and logged, leaving that realm
unchanged with nothing sent. -/
def sweep_step (doSend : Transport) (now : Int) (skip_delay : Bool)
    (r : RealmState) : RealmState × List Message :=
  if realm_is_behind get_latest_zulip_update_announcements_level r then
    match send_zulip_update_announcements_to_realm doSend now skip_delay false r with
    | .ok o => (o.newState, o.sent)
    | .error _ => (r, [])
  else (r, [])

/-- `send_zulip_update_announcements`: select the realms behind the latest
level and process each independently.  Modelled positionally over the whole
directory — realms the query excludes are untouched — returning the updated
directory and the concatenation of all sent messages in processing order. -/
def send_zulip_update_announcements (doSend : Transport) (now : Int)
    (skip_delay : Bool) (realms : List RealmState) :
    List RealmState × List Message :=
  ((realms.map (sweep_step doSend now skip_delay)).map Prod.fst,
   ((realms.map (sweep_step doSend now skip_delay)).map Prod.snd).flatten)

/-- Parameters of one rollout run: transport, current time, skip_delay. -/
structure RunParams where
  doSend : Transport
  now : Int
  skipDelay : Bool

/-- A sequence of rollout runs applied to the realm directory. -/
def apply_runs (runs : List RunParams) (realms : List RealmState) :
    List RealmState :=
  runs.foldl
    (fun ws p => (send_zulip_update_announcements p.doSend p.now p.skipDelay ws).fst)
    realms

/-- The evolution of a single realm across a sequence of runs (each sweep
acts on every realm independently). -/
def apply_runs_realm (runs : List RunParams) (r : RealmState) : RealmState :=
  runs.foldl (fun s p => (sweep_step p.doSend p.now p.skipDelay s).fst) r

/-! Basic facts about the catalog and the helper functions. -/

theorem latest_level_eq : get_latest_zulip_update_announcements_level = 6 := rfl

theorem list_get?_isSome {α : Type} (l : List α) (n : Nat) :
    (l.get? n).isSome ↔ n < l.length := by
  rw [List.get?_eq_getElem?]
  constructor
  · intro h
    rcases Option.isSome_iff_exists.mp h with ⟨a, ha⟩
    exact (List.getElem?_eq_some.mp ha).1
  · intro h
    rw [List.getElem?_eq_getElem h]
    rfl

theorem pyListGet_isSome {α : Type} (xs : List α) (i : Int) :
    (pyListGet xs i).isSome ↔ (-(xs.length : Int) ≤ i ∧ i < xs.length) := by
  unfold pyListGet
  split_ifs with h1 h2
  · rw [list_get?_isSome]
    omega
  · rw [list_get?_isSome]
    omega
  · simp only [Option.isSome_none, Bool.false_eq_true, false_iff]
    omega

theorem prep_stream_messages_eq_range (current latest : Nat) :
    internal_prep_zulip_update_announcements_stream_messages current latest =
      (List.range' (current + 1) (latest - current)).map Message.announcement := by
  by_cases h : current < latest
  · rw [internal_prep_zulip_update_announcements_stream_messages]
    simp only [h, if_true]
    rw [prep_stream_messages_eq_range (current + 1) latest]
    have hn : latest - current = (latest - (current + 1)) + 1 := by omega
    rw [hn, List.range'_succ]
    rfl
  · rw [internal_prep_zulip_update_announcements_stream_messages]
    simp only [h, if_false]
    have hn : latest - current = 0 := by omega
    rw [hn]
    rfl
termination_by latest - current
decreasing_by omega

theorem length_prep_stream_messages (current latest : Nat) :
    (internal_prep_zulip_update_announcements_stream_messages current latest).length =
      latest - current := by
  rw [prep_stream_messages_eq_range]
  simp

/-! Branch characterizations of the per-realm run. -/

theorem run_realm_none (doSend : Transport) (now : Int) (sd imp : Bool)
    (r : RealmState) (h : r.level = none) :
    send_zulip_update_announcements_to_realm doSend now sd imp r =
      send_messages_and_update_level doSend now r
        (if imp then get_latest_zulip_update_announcements_level else 0)
        [Message.groupDM r.hasStream] := by
  unfold send_zulip_update_announcements_to_realm
  rw [h]

theorem run_realm_stale (doSend : Transport) (now : Int) (sd imp : Bool)
    (r : RealmState) (l : Nat) (h : r.level = some l)
    (hge : get_latest_zulip_update_announcements_level ≤ l) :
    send_zulip_update_announcements_to_realm doSend now sd imp r =
      .error .staleLevel := by
  unfold send_zulip_update_announcements_to_realm
  rw [h]
  simp only [Nat.not_lt.mpr hge, if_false]

theorem run_realm_no_stream_no_audit (doSend : Transport) (now : Int)
    (sd imp : Bool) (r : RealmState) (l : Nat) (h : r.level = some l)
    (hlt : l < get_latest_zulip_update_announcements_level)
    (hs : r.hasStream = false)
    (haud : get_level_none_to_initial_auditlog r = none) :
    send_zulip_update_announcements_to_realm doSend now sd imp r =
      send_messages_and_update_level doSend now r
        get_latest_zulip_update_announcements_level [] := by
  unfold send_zulip_update_announcements_to_realm
  rw [h]
  simp only [hlt, if_true, hs, Bool.false_eq_true, if_false, haud]

theorem run_realm_no_stream_within_grace (doSend : Transport) (now : Int)
    (sd imp : Bool) (r : RealmState) (l : Nat) (ev : AuditEvent)
    (h : r.level = some l)
    (hlt : l < get_latest_zulip_update_announcements_level)
    (hs : r.hasStream = false)
    (haud : get_level_none_to_initial_auditlog r = some ev)
    (hwithin : now - ev.eventTime < 7 * 86400) :
    send_zulip_update_announcements_to_realm doSend now sd imp r =
      .ok { newState := r, sent := [] } := by
  unfold send_zulip_update_announcements_to_realm
  rw [h]
  simp only [hlt, if_true, hs, Bool.false_eq_true, if_false, haud, hwithin]

theorem run_realm_no_stream_after_grace (doSend : Transport) (now : Int)
    (sd imp : Bool) (r : RealmState) (l : Nat) (ev : AuditEvent)
    (h : r.level = some l)
    (hlt : l < get_latest_zulip_update_announcements_level)
    (hs : r.hasStream = false)
    (haud : get_level_none_to_initial_auditlog r = some ev)
    (hafter : ¬(now - ev.eventTime < 7 * 86400)) :
    send_zulip_update_announcements_to_realm doSend now sd imp r =
      send_messages_and_update_level doSend now r
        get_latest_zulip_update_announcements_level [] := by
  unfold send_zulip_update_announcements_to_realm
  rw [h]
  simp only [hlt, if_true, hs, Bool.false_eq_true, if_false, haud, hafter]

theorem run_realm_stream_no_audit (doSend : Transport) (now : Int)
    (sd imp : Bool) (r : RealmState) (h : r.level = some 0)
    (hs : r.hasStream = true)
    (haud : get_level_none_to_initial_auditlog r = none) :
    send_zulip_update_announcements_to_realm doSend now sd imp r =
      .error .noOnboardingAudit := by
  unfold send_zulip_update_announcements_to_realm
  rw [h]
  have h06 : (0 : Nat) < get_latest_zulip_update_announcements_level := by
    rw [latest_level_eq]; omega
  simp only [h06, if_true, hs, if_true]
  unfold is_group_direct_message_sent_to_admins_within_days
  rw [haud]

theorem run_realm_stream_wait (doSend : Transport) (now : Int)
    (imp : Bool) (r : RealmState) (ev : AuditEvent) (h : r.level = some 0)
    (hs : r.hasStream = true)
    (haud : get_level_none_to_initial_auditlog r = some ev)
    (hwithin : now - ev.eventTime < 1 * 86400) :
    send_zulip_update_announcements_to_realm doSend now false imp r =
      .ok { newState := r, sent := [] } := by
  unfold send_zulip_update_announcements_to_realm
  rw [h]
  have h06 : (0 : Nat) < get_latest_zulip_update_announcements_level := by
    rw [latest_level_eq]; omega
  simp only [h06, if_true, hs]
  unfold is_group_direct_message_sent_to_admins_within_days
  rw [haud]
  have hw : now - ev.eventTime < 86400 := by omega
  simp [hw]

theorem run_realm_stream_zero_go (doSend : Transport) (now : Int)
    (sd imp : Bool) (r : RealmState) (ev : AuditEvent) (h : r.level = some 0)
    (hs : r.hasStream = true)
    (haud : get_level_none_to_initial_auditlog r = some ev)
    (hgo : sd = true ∨ ¬(now - ev.eventTime < 1 * 86400)) :
    send_zulip_update_announcements_to_realm doSend now sd imp r =
      send_catch_up_messages doSend now r 0
        get_latest_zulip_update_announcements_level := by
  unfold send_zulip_update_announcements_to_realm
  rw [h]
  have h06 : (0 : Nat) < get_latest_zulip_update_announcements_level := by
    rw [latest_level_eq]; omega
  simp only [h06, if_true, hs, if_true]
  unfold is_group_direct_message_sent_to_admins_within_days
  rw [haud]
  rcases hgo with hsd | hnw
  · subst hsd
    simp
  · have hnw' : ¬(now - ev.eventTime < 86400) := by omega
    simp [hnw']

theorem run_realm_stream_pos (doSend : Transport) (now : Int)
    (sd imp : Bool) (r : RealmState) (l : Nat) (h : r.level = some l)
    (hpos : l ≠ 0) (hlt : l < get_latest_zulip_update_announcements_level)
    (hs : r.hasStream = true) :
    send_zulip_update_announcements_to_realm doSend now sd imp r =
      send_catch_up_messages doSend now r l
        get_latest_zulip_update_announcements_level := by
  unfold send_zulip_update_announcements_to_realm
  rw [h]
  simp only [hlt, if_true, hs, if_true, hpos, if_false]

/-! Characterizations of the atomic commit. -/

theorem commit_empty (doSend : Transport) (now : Int) (r : RealmState)
    (nl : Nat) :
    send_messages_and_update_level doSend now r nl [] =
      .ok { newState := { r with
              auditLog := r.auditLog ++
                [{ oldValue := r.level, newValue := nl, eventTime := now,
                   messageIds := [] }],
              level := some nl },
            sent := [] } := by
  unfold send_messages_and_update_level
  simp

theorem commit_send_fails (doSend : Transport) (now : Int) (r : RealmState)
    (nl : Nat) (msgs : List Message) (hne : msgs ≠ [])
    (hfail : doSend msgs = none) :
    send_messages_and_update_level doSend now r nl msgs =
      .error .sendFailed := by
  unfold send_messages_and_update_level
  rw [if_neg (by simpa using hne), hfail]

theorem commit_send_ok (doSend : Transport) (now : Int) (r : RealmState)
    (nl : Nat) (msgs : List Message) (ids : List Nat) (hne : msgs ≠ [])
    (hok : doSend msgs = some ids) :
    send_messages_and_update_level doSend now r nl msgs =
      .ok { newState := { r with
              auditLog := r.auditLog ++
                [{ oldValue := r.level, newValue := nl, eventTime := now,
                   messageIds := ids }],
              level := some nl,
              topicHasMessages := r.topicHasMessages || msgs.any Message.isStream },
            sent := msgs } := by
  unfold send_messages_and_update_level
  rw [if_neg (by simpa using hne), hok]

/-- The realm state written by a successful commit: one audit row appended,
the level column updated, and the announcements topic non-empty as soon as a
stream message was sent to it. -/
def commit_state (now : Int) (r : RealmState) (nl : Nat) (ids : List Nat)
    (msgs : List Message) : RealmState :=
  { r with
    auditLog := r.auditLog ++
      [{ oldValue := r.level, newValue := nl, eventTime := now,
         messageIds := ids }],
    level := some nl,
    topicHasMessages := r.topicHasMessages || msgs.any Message.isStream }

theorem commit_ok_inv (doSend : Transport) (now : Int) (r : RealmState)
    (nl : Nat) (msgs : List Message) (o : RunOutcome)
    (hok : send_messages_and_update_level doSend now r nl msgs = .ok o) :
    o.sent = msgs ∧ ∃ ids, o.newState = commit_state now r nl ids msgs := by
  unfold send_messages_and_update_level at hok
  split at hok
  · exact absurd hok (by simp)
  · rename_i ids hm
    injection hok with h
    exact ⟨by rw [← h], ids, by rw [← h]; rfl⟩

theorem catch_up_ok_inv (doSend : Transport) (now : Int) (r : RealmState)
    (current latest : Nat) (o : RunOutcome)
    (hok : send_catch_up_messages doSend now r current latest = .ok o) :
    o.sent = (if r.topicHasMessages then [] else [Message.intro]) ++
      (List.range' (current + 1) (latest - current)).map Message.announcement ∧
    o.newState.level = some latest := by
  unfold send_catch_up_messages at hok
  obtain ⟨hsent, ids, hst⟩ := commit_ok_inv _ _ _ _ _ _ hok
  rw [prep_stream_messages_eq_range] at hsent
  exact ⟨hsent, by rw [hst]; rfl⟩

/-! Example states used to instantiate the claim theorems on concrete inputs. -/

def exampleRealmAtFive : RealmState :=
  { level := some 5, hasStream := true, topicHasMessages := false,
    auditLog := [], deactivated := false, isSystemBotRealm := false }

def exampleRealmAtThree : RealmState :=
  { level := some 3, hasStream := true, topicHasMessages := true,
    auditLog := [], deactivated := false, isSystemBotRealm := false }

def exampleOnboardingEvent : AuditEvent :=
  { oldValue := none, newValue := 0, eventTime := 0, messageIds := [] }

def exampleRealmFreshZero : RealmState :=
  { level := some 0, hasStream := true, topicHasMessages := false,
    auditLog := [exampleOnboardingEvent], deactivated := false,
    isSystemBotRealm := false }

def exampleRealmZeroNoAudit : RealmState :=
  { level := some 0, hasStream := true, topicHasMessages := false,
    auditLog := [], deactivated := false, isSystemBotRealm := false }

def exampleRealmNoStream : RealmState :=
  { level := some 0, hasStream := false, topicHasMessages := false,
    auditLog := [exampleOnboardingEvent], deactivated := false,
    isSystemBotRealm := false }

def exampleRealmUninitialized : RealmState :=
  { level := none, hasStream := true, topicHasMessages := false,
    auditLog := [], deactivated := false, isSystemBotRealm := false }

/-! C2: catalog lookup. -/

/-- C2: the claim states that `get_zulip_update_announcements_message_for_level`
fails for every level outside `1 ≤ level ≤ latestLevel`, in particular at
level 0.  It does not: the Python subscription `zulip_update_announcements[level - 1]`
accepts the negative index -1, so level 0 returns the message of the latest
level instead of raising. -/
theorem C2_counterexample :
    (get_zulip_update_announcements_message_for_level 0).isSome = true ∧
    ¬(1 ≤ (0 : Int) ∧ (0 : Int) ≤ get_latest_zulip_update_announcements_level) :=
  ⟨rfl, by decide⟩

/-- C2 (amended): the lookup succeeds exactly for
`-latestLevel < level ≤ latestLevel`; on `1 ≤ level ≤ latestLevel` it is the
intended catalog message, while on `-latestLevel < level ≤ 0` Python negative
indexing makes it return the message of level `level + latestLevel`. -/
theorem C2_catalog_lookup (level : Int) :
    ((get_zulip_update_announcements_message_for_level level).isSome ↔
      (-(get_latest_zulip_update_announcements_level : Int) < level ∧
        level ≤ (get_latest_zulip_update_announcements_level : Int))) ∧
    (-(get_latest_zulip_update_announcements_level : Int) < level → level ≤ 0 →
      get_zulip_update_announcements_message_for_level level =
        get_zulip_update_announcements_message_for_level
          (level + get_latest_zulip_update_announcements_level)) := by
  have hlen : zulip_update_announcements.length = 6 := rfl
  constructor
  · unfold get_zulip_update_announcements_message_for_level
    rw [Option.isSome_map', pyListGet_isSome, hlen, latest_level_eq]
    omega
  · intro h1 h2
    rw [latest_level_eq] at h1 ⊢
    unfold get_zulip_update_announcements_message_for_level pyListGet
    rw [hlen]
    push_cast
    rw [if_neg (by omega : ¬(0 : Int) ≤ level - 1),
      if_pos (by omega : (0 : Int) ≤ level - 1 + 6),
      if_pos (by omega : (0 : Int) ≤ level + 6 - 1)]
    have hidx : (level - 1 + 6).toNat = (level + 6 - 1).toNat := by omega
    rw [hidx]

/-- C2 witness: the amended dichotomy instantiated at level 0. -/
theorem C2_catalog_lookup_witness :
    ((get_zulip_update_announcements_message_for_level 0).isSome ↔
      (-(get_latest_zulip_update_announcements_level : Int) < 0 ∧
        (0 : Int) ≤ get_latest_zulip_update_announcements_level)) ∧
    (-(get_latest_zulip_update_announcements_level : Int) < 0 → (0 : Int) ≤ 0 →
      get_zulip_update_announcements_message_for_level 0 =
        get_zulip_update_announcements_message_for_level
          (0 + get_latest_zulip_update_announcements_level)) :=
  C2_catalog_lookup 0

/-! C5: never-initialized realms. -/

/-- C5: a realm with null level gets exactly one administrator group direct
message (whose content depends on whether a stream is configured) and lands
at the latest level when imported from another product, at level 0 otherwise;
no catalog announcement is sent to it. -/
theorem C5_never_initialized (doSend : Transport) (now : Int) (sd imp : Bool)
    (r : RealmState) (o : RunOutcome) (hL : r.level = none)
    (hok : send_zulip_update_announcements_to_realm doSend now sd imp r = .ok o) :
    o.sent = [Message.groupDM r.hasStream] ∧
    o.newState.level =
      some (if imp then get_latest_zulip_update_announcements_level else 0) ∧
    (∀ n, Message.announcement n ∉ o.sent) := by
  rw [run_realm_none doSend now sd imp r hL] at hok
  obtain ⟨hsent, ids, hst⟩ := commit_ok_inv _ _ _ _ _ _ hok
  refine ⟨hsent, by rw [hst]; rfl, ?_⟩
  intro n hmem
  rw [hsent] at hmem
  simp at hmem

/-- A never-initialized realm with no stream configured. -/
def exampleRealmUninitializedNoStream : RealmState :=
  { level := none, hasStream := false, topicHasMessages := false,
    auditLog := [], deactivated := false, isSystemBotRealm := false }

/-- The audit row written by the onboarding run on the imported realm. -/
def exampleOnboardEvent : AuditEvent :=
  { oldValue := none, newValue := get_latest_zulip_update_announcements_level,
    eventTime := 0, messageIds := [0] }

/-- The realm state after the onboarding run on the imported realm. -/
def exampleOnboardState : RealmState :=
  { level := some get_latest_zulip_update_announcements_level,
    hasStream := false, topicHasMessages := false,
    auditLog := [exampleOnboardEvent],
    deactivated := false, isSystemBotRealm := false }

/-- The outcome of the onboarding run on the imported realm above. -/
def exampleOnboardOutcome : RunOutcome :=
  { newState := exampleOnboardState, sent := [Message.groupDM false] }

/-- C5 witness: an imported, never-initialized realm with no stream lands at
the latest level after its onboarding run, with one admin group DM sent. -/
theorem C5_never_initialized_witness :
    exampleOnboardOutcome.sent =
      [Message.groupDM exampleRealmUninitializedNoStream.hasStream] ∧
    exampleOnboardOutcome.newState.level =
      some (if true then get_latest_zulip_update_announcements_level else 0) := by
  have hok : send_zulip_update_announcements_to_realm okSend 0 false true
      exampleRealmUninitializedNoStream = .ok exampleOnboardOutcome := rfl
  have h := C5_never_initialized okSend 0 false true
    exampleRealmUninitializedNoStream exampleOnboardOutcome rfl hok
  exact ⟨h.1, h.2.1⟩

/-! C7: transport failure leaves the commit unapplied. -/

/-- C7: if the transport fails on a non-empty batch, the atomic commit
applies nothing — no audit row, no level change — and any realm whose cycle
raises is left untouched by the sweep, so it stays eligible for the next
sweep. -/
theorem C7_transport_failure_atomic (doSend : Transport) (now : Int)
    (r : RealmState) (nl : Nat) (msgs : List Message)
    (hne : msgs ≠ []) (hfail : doSend msgs = none) :
    send_messages_and_update_level doSend now r nl msgs = .error .sendFailed ∧
    (∀ (doSend2 : Transport) (now2 : Int) (sd : Bool) (r2 : RealmState)
        (e : RunError),
      send_zulip_update_announcements_to_realm doSend2 now2 sd false r2 =
        .error e →
      sweep_step doSend2 now2 sd r2 = (r2, [])) := by
  refine ⟨commit_send_fails _ _ _ _ _ hne hfail, ?_⟩
  intro doSend2 now2 sd r2 e herr
  unfold sweep_step
  split_ifs with h
  · rw [herr]
  · rfl

/-- C7 witness: the failing transport on the singleton introductory batch. -/
theorem C7_transport_failure_atomic_witness :
    send_messages_and_update_level failSend 0 exampleRealmAtFive 6
        [Message.intro] = .error .sendFailed ∧
    (∀ (doSend2 : Transport) (now2 : Int) (sd : Bool) (r2 : RealmState)
        (e : RunError),
      send_zulip_update_announcements_to_realm doSend2 now2 sd false r2 =
        .error e →
      sweep_step doSend2 now2 sd r2 = (r2, [])) :=
  C7_transport_failure_atomic failSend 0 exampleRealmAtFive 6 [Message.intro]
    (by simp) rfl

/-! C10: level 0 with a stream but no onboarding audit row. -/

/-- C10: a realm at level 0 with a configured stream but no audit row
recording the transition away from null fails the assertion inside the
24-hour delay check — the Python conjunction evaluates
`is_group_direct_message_sent_to_admins_within_days` before `not skip_delay`,
so the failure happens for both values of `skip_delay` — and the sweep
leaves the realm unchanged with nothing sent. -/
theorem C10_missing_onboarding_audit (doSend : Transport) (now : Int)
    (sd imp : Bool) (r : RealmState) (hL : r.level = some 0)
    (hs : r.hasStream = true)
    (hnone : get_level_none_to_initial_auditlog r = none) :
    send_zulip_update_announcements_to_realm doSend now sd imp r =
      .error .noOnboardingAudit ∧
    sweep_step doSend now sd r = (r, []) := by
  refine ⟨run_realm_stream_no_audit doSend now sd imp r hL hs hnone, ?_⟩
  unfold sweep_step
  split_ifs with h
  · rw [run_realm_stream_no_audit doSend now sd false r hL hs hnone]
  · rfl

/-- C10 witness: the concrete level-0 realm with an empty audit log fails
the assertion with `skip_delay` set. -/
theorem C10_missing_onboarding_audit_witness :
    send_zulip_update_announcements_to_realm okSend 0 true false
        exampleRealmZeroNoAudit = .error .noOnboardingAudit ∧
    sweep_step okSend 0 true exampleRealmZeroNoAudit =
      (exampleRealmZeroNoAudit, []) :=
  C10_missing_onboarding_audit okSend 0 true false exampleRealmZeroNoAudit
    rfl rfl rfl

/-! C1: the catch-up batch. -/

/-- C1: the claim counts exactly `latestLevel - L` sent messages for an
organization at level `L` with a configured channel and delay windows
satisfied.  It fails when the announcements topic is empty: the engine then
prepends a one-time introductory message, so a realm at level 5 with an
empty topic receives 2 messages, not `6 - 5 = 1`. -/
theorem C1_counterexample :
    (send_zulip_update_announcements_to_realm okSend 0 false false
        exampleRealmAtFive).map (fun o => o.sent) =
      .ok [Message.intro, Message.announcement 6] ∧
    ¬((2 : Nat) = get_latest_zulip_update_announcements_level - 5) := by
  constructor
  · have hp : internal_prep_zulip_update_announcements_stream_messages 5
        get_latest_zulip_update_announcements_level =
        [Message.announcement 6] := by
      rw [prep_stream_messages_eq_range]
      rfl
    rw [run_realm_stream_pos okSend 0 false false _ 5 rfl (by decide)
      (by decide) rfl]
    unfold send_catch_up_messages
    rw [hp]
    rfl
  · decide

/-- C1 (amended): for a realm at level `L < latestLevel` with a configured
channel and delay windows satisfied, a successful run commits the level at
`latestLevel` and sends, in order, the catalog messages for levels
`L+1 .. latestLevel` — exactly `latestLevel - L` of them, strictly
sequential — preceded by the one-time introductory message exactly when the
announcements topic has no messages yet. -/
theorem C1_catch_up_batch (doSend : Transport) (now : Int) (sd imp : Bool)
    (r : RealmState) (L : Nat) (o : RunOutcome)
    (hL : r.level = some L)
    (hlt : L < get_latest_zulip_update_announcements_level)
    (hs : r.hasStream = true)
    (hdelay : L = 0 → ∃ ev, get_level_none_to_initial_auditlog r = some ev ∧
      (sd = true ∨ ¬(now - ev.eventTime < 1 * 86400)))
    (hok : send_zulip_update_announcements_to_realm doSend now sd imp r = .ok o) :
    o.newState.level = some get_latest_zulip_update_announcements_level ∧
    o.sent = (if r.topicHasMessages then [] else [Message.intro]) ++
      (List.range' (L + 1) (get_latest_zulip_update_announcements_level - L)).map
        Message.announcement ∧
    ((List.range' (L + 1) (get_latest_zulip_update_announcements_level - L)).map
        Message.announcement).length =
      get_latest_zulip_update_announcements_level - L := by
  by_cases hz : L = 0
  · subst hz
    obtain ⟨ev, hev, hgo⟩ := hdelay rfl
    rw [run_realm_stream_zero_go doSend now sd imp r ev hL hs hev hgo] at hok
    obtain ⟨hsent, hlevel⟩ := catch_up_ok_inv _ _ _ _ _ _ hok
    exact ⟨hlevel, hsent, by simp⟩
  · rw [run_realm_stream_pos doSend now sd imp r L hL hz hlt hs] at hok
    obtain ⟨hsent, hlevel⟩ := catch_up_ok_inv _ _ _ _ _ _ hok
    exact ⟨hlevel, hsent, by simp⟩

/-- The audit row written by the catch-up run on the level-3 realm. -/
def exampleCatchUpEvent : AuditEvent :=
  { oldValue := some 3, newValue := 6, eventTime := 0, messageIds := [0, 1, 2] }

/-- The realm state after the catch-up run on the level-3 realm. -/
def exampleCatchUpState : RealmState :=
  { level := some 6, hasStream := true, topicHasMessages := true,
    auditLog := [exampleCatchUpEvent], deactivated := false,
    isSystemBotRealm := false }

/-- The outcome of the catch-up run on the level-3 realm. -/
def exampleCatchUpOutcome : RunOutcome :=
  { newState := exampleCatchUpState,
    sent := [Message.announcement 4, Message.announcement 5,
      Message.announcement 6] }

/-- C1 witness: the level-3 realm with a non-empty topic receives exactly
the three catalog messages for levels 4, 5, 6 and lands at level 6. -/
theorem C1_catch_up_batch_witness :
    exampleCatchUpOutcome.newState.level =
      some get_latest_zulip_update_announcements_level ∧
    exampleCatchUpOutcome.sent =
      (if exampleRealmAtThree.topicHasMessages then [] else [Message.intro]) ++
        (List.range' (3 + 1)
          (get_latest_zulip_update_announcements_level - 3)).map
          Message.announcement ∧
    ((List.range' (3 + 1)
        (get_latest_zulip_update_announcements_level - 3)).map
        Message.announcement).length =
      get_latest_zulip_update_announcements_level - 3 := by
  have hok : send_zulip_update_announcements_to_realm okSend 0 false false
      exampleRealmAtThree = .ok exampleCatchUpOutcome := by
    have hp : internal_prep_zulip_update_announcements_stream_messages 3
        get_latest_zulip_update_announcements_level =
        [Message.announcement 4, Message.announcement 5,
          Message.announcement 6] := by
      rw [prep_stream_messages_eq_range]
      rfl
    rw [run_realm_stream_pos okSend 0 false false _ 3 rfl (by decide)
      (by decide) rfl]
    unfold send_catch_up_messages
    rw [hp]
    rfl
  exact C1_catch_up_batch okSend 0 false false exampleRealmAtThree 3
    exampleCatchUpOutcome rfl (by decide) rfl
    (fun h => absurd h (by decide)) hok

/-! C3: realms without an announcement stream. -/

/-- C3: a realm with a non-null level behind latest and no stream configured
silently advances to the latest level — one audit row, zero messages — when
the onboarding audit row is absent or at least 7 days old; within the 7-day
grace window it is left completely unchanged with nothing sent. -/
theorem C3_no_stream_grace_window (doSend : Transport) (now : Int)
    (sd imp : Bool) (r : RealmState) (L : Nat)
    (hL : r.level = some L)
    (hlt : L < get_latest_zulip_update_announcements_level)
    (hs : r.hasStream = false) :
    ((get_level_none_to_initial_auditlog r = none ∨
      (∃ ev, get_level_none_to_initial_auditlog r = some ev ∧
        ¬(now - ev.eventTime < 7 * 86400))) →
      send_zulip_update_announcements_to_realm doSend now sd imp r =
        .ok { newState := commit_state now r
                get_latest_zulip_update_announcements_level [] [],
              sent := [] }) ∧
    (∀ ev, get_level_none_to_initial_auditlog r = some ev →
      now - ev.eventTime < 7 * 86400 →
      send_zulip_update_announcements_to_realm doSend now sd imp r =
        .ok { newState := r, sent := [] }) := by
  constructor
  · intro hcase
    have hcommit : send_zulip_update_announcements_to_realm doSend now sd imp r =
        send_messages_and_update_level doSend now r
          get_latest_zulip_update_announcements_level [] := by
      rcases hcase with hnone | ⟨ev, hev, hafter⟩
      · exact run_realm_no_stream_no_audit doSend now sd imp r L hL hlt hs hnone
      · exact run_realm_no_stream_after_grace doSend now sd imp r L ev hL hlt hs
          hev hafter
    rw [hcommit, commit_empty]
    simp [commit_state]
  · intro ev hev hwithin
    exact run_realm_no_stream_within_grace doSend now sd imp r L ev hL hlt hs
      hev hwithin

/-- C3 witness: the no-stream realm queried 8 days and 2 hours after its
onboarding event advances silently to the latest level; within the window
(at 100 seconds) nothing happens. -/
theorem C3_no_stream_grace_window_witness :
    send_zulip_update_announcements_to_realm okSend 700000 false false
        exampleRealmNoStream =
      .ok { newState := commit_state 700000 exampleRealmNoStream
              get_latest_zulip_update_announcements_level [] [],
            sent := [] } ∧
    send_zulip_update_announcements_to_realm okSend 100 false false
        exampleRealmNoStream =
      .ok { newState := exampleRealmNoStream, sent := [] } :=
  ⟨(C3_no_stream_grace_window okSend 700000 false false exampleRealmNoStream 0
      rfl (by decide) rfl).1
    (Or.inr ⟨exampleOnboardingEvent, rfl, by decide⟩),
   (C3_no_stream_grace_window okSend 100 false false exampleRealmNoStream 0
      rfl (by decide) rfl).2 exampleOnboardingEvent rfl (by decide)⟩

/-! C4: the 24-hour delay window at level 0. -/

/-- C4: a realm at level 0 with a configured stream whose onboarding event
is under 24 hours old does nothing when `skip_delay` is false, and with
`skip_delay` set proceeds at the same instant: a successful run commits the
latest level and sends the full catch-up batch. -/
theorem C4_skip_delay_window (doSend : Transport) (now : Int) (imp : Bool)
    (r : RealmState) (ev : AuditEvent)
    (hL : r.level = some 0) (hs : r.hasStream = true)
    (hev : get_level_none_to_initial_auditlog r = some ev)
    (hwithin : now - ev.eventTime < 1 * 86400) :
    send_zulip_update_announcements_to_realm doSend now false imp r =
      .ok { newState := r, sent := [] } ∧
    (∀ o, send_zulip_update_announcements_to_realm doSend now true imp r =
        .ok o →
      o.newState.level = some get_latest_zulip_update_announcements_level ∧
      o.sent = (if r.topicHasMessages then [] else [Message.intro]) ++
        (List.range' 1 get_latest_zulip_update_announcements_level).map
          Message.announcement) := by
  constructor
  · exact run_realm_stream_wait doSend now imp r ev hL hs hev hwithin
  · intro o hok
    rw [run_realm_stream_zero_go doSend now true imp r ev hL hs hev
      (Or.inl rfl)] at hok
    obtain ⟨hsent, hlevel⟩ := catch_up_ok_inv _ _ _ _ _ _ hok
    refine ⟨hlevel, ?_⟩
    rw [hsent]
    rfl

/-- The audit row written by the skip-delay catch-up on the fresh realm. -/
def exampleFreshCatchUpEvent : AuditEvent :=
  { oldValue := some 0, newValue := 6, eventTime := 0,
    messageIds := [0, 1, 2, 3, 4, 5, 6] }

/-- The realm state after the skip-delay catch-up on the fresh realm. -/
def exampleFreshCatchUpState : RealmState :=
  { level := some 6, hasStream := true, topicHasMessages := true,
    auditLog := [exampleOnboardingEvent, exampleFreshCatchUpEvent],
    deactivated := false, isSystemBotRealm := false }

/-- The outcome of the skip-delay catch-up on the fresh realm. -/
def exampleFreshCatchUpOutcome : RunOutcome :=
  { newState := exampleFreshCatchUpState,
    sent := [Message.intro, Message.announcement 1, Message.announcement 2,
      Message.announcement 3, Message.announcement 4, Message.announcement 5,
      Message.announcement 6] }

/-- C4 witness: the freshly onboarded level-0 realm, queried at the very
moment of onboarding, waits without `skip_delay` and catches up with it. -/
theorem C4_skip_delay_window_witness :
    send_zulip_update_announcements_to_realm okSend 0 false false
        exampleRealmFreshZero =
      .ok { newState := exampleRealmFreshZero, sent := [] } ∧
    (exampleFreshCatchUpOutcome.newState.level =
        some get_latest_zulip_update_announcements_level ∧
      exampleFreshCatchUpOutcome.sent =
        (if exampleRealmFreshZero.topicHasMessages then [] else [Message.intro]) ++
          (List.range' 1 get_latest_zulip_update_announcements_level).map
            Message.announcement) := by
  have hok : send_zulip_update_announcements_to_realm okSend 0 true false
      exampleRealmFreshZero = .ok exampleFreshCatchUpOutcome := by
    have hp : internal_prep_zulip_update_announcements_stream_messages 0
        get_latest_zulip_update_announcements_level =
        [Message.announcement 1, Message.announcement 2,
          Message.announcement 3, Message.announcement 4,
          Message.announcement 5, Message.announcement 6] := by
      rw [prep_stream_messages_eq_range]
      rfl
    rw [run_realm_stream_zero_go okSend 0 true false exampleRealmFreshZero
      exampleOnboardingEvent rfl rfl rfl (Or.inl rfl)]
    unfold send_catch_up_messages
    rw [hp]
    rfl
  have h := C4_skip_delay_window okSend 0 false exampleRealmFreshZero
    exampleOnboardingEvent rfl rfl rfl (by decide)
  exact ⟨h.1, h.2 exampleFreshCatchUpOutcome hok⟩

/-! C8: the post-refetch assertion and per-realm failure isolation. -/

/-- A realm whose stored level already equals the latest level. -/
def exampleRealmAtSix : RealmState :=
  { level := some 6, hasStream := true, topicHasMessages := true,
    auditLog := [], deactivated := false, isSystemBotRealm := false }

/-- C8: after the re-fetch, a realm whose level is not null and not behind
the latest level fails the assertion — an error for that realm only, with
nothing sent and no state change; any per-realm error is swallowed by the
sweep, which leaves that realm untouched; and the sweep treats every
position independently, so the remaining realms are processed exactly as
they would be on their own. -/
theorem C8_post_refetch_assert :
    (∀ (doSend : Transport) (now : Int) (sd imp : Bool) (r : RealmState)
        (L : Nat),
      r.level = some L →
      get_latest_zulip_update_announcements_level ≤ L →
      send_zulip_update_announcements_to_realm doSend now sd imp r =
        .error .staleLevel) ∧
    (∀ (doSend : Transport) (now : Int) (sd : Bool) (r : RealmState)
        (e : RunError),
      send_zulip_update_announcements_to_realm doSend now sd false r =
        .error e →
      sweep_step doSend now sd r = (r, [])) ∧
    (∀ (doSend : Transport) (now : Int) (sd : Bool) (xs ys : List RealmState)
        (r : RealmState),
      send_zulip_update_announcements doSend now sd (xs ++ r :: ys) =
        ((send_zulip_update_announcements doSend now sd xs).1 ++
          (sweep_step doSend now sd r).1 ::
            (send_zulip_update_announcements doSend now sd ys).1,
         (send_zulip_update_announcements doSend now sd xs).2 ++
          ((sweep_step doSend now sd r).2 ++
            (send_zulip_update_announcements doSend now sd ys).2))) := by
  refine ⟨?_, ?_, ?_⟩
  · intro doSend now sd imp r L hL hge
    exact run_realm_stale doSend now sd imp r L hL hge
  · intro doSend now sd r e herr
    unfold sweep_step
    split_ifs with h
    · rw [herr]
    · rfl
  · intro doSend now sd xs ys r
    unfold send_zulip_update_announcements
    simp

/-- C8 witness: a realm already at level 6 fails the assertion; the sweep
over it and a level-3 realm leaves it unchanged and processes the rest. -/
theorem C8_post_refetch_assert_witness :
    send_zulip_update_announcements_to_realm okSend 0 false false
        exampleRealmAtSix = .error .staleLevel ∧
    sweep_step okSend 0 false exampleRealmAtSix = (exampleRealmAtSix, []) ∧
    send_zulip_update_announcements okSend 0 false
        ([] ++ exampleRealmAtSix :: [exampleRealmAtThree]) =
      ((send_zulip_update_announcements okSend 0 false []).1 ++
        (sweep_step okSend 0 false exampleRealmAtSix).1 ::
          (send_zulip_update_announcements okSend 0 false
            [exampleRealmAtThree]).1,
       (send_zulip_update_announcements okSend 0 false []).2 ++
        ((sweep_step okSend 0 false exampleRealmAtSix).2 ++
          (send_zulip_update_announcements okSend 0 false
            [exampleRealmAtThree]).2)) := by
  have h1 := C8_post_refetch_assert.1 okSend 0 false false exampleRealmAtSix 6
    rfl (by decide)
  exact ⟨h1,
    C8_post_refetch_assert.2.1 okSend 0 false exampleRealmAtSix .staleLevel h1,
    C8_post_refetch_assert.2.2 okSend 0 false [] [exampleRealmAtThree]
      exampleRealmAtSix⟩

/-! Master inversion of a successful per-realm run: either a no-op wait, or
a single commit whose target level is determined by the branch taken. -/

theorem run_ok_inv (doSend : Transport) (now : Int) (sd imp : Bool)
    (r : RealmState) (o : RunOutcome)
    (hok : send_zulip_update_announcements_to_realm doSend now sd imp r = .ok o) :
    o = { newState := r, sent := [] } ∨
    ∃ ids,
      (r.level = none ∧
        o.newState = commit_state now r
          (if imp then get_latest_zulip_update_announcements_level else 0)
          ids o.sent) ∨
      (∃ l, r.level = some l ∧
        l < get_latest_zulip_update_announcements_level ∧
        o.newState = commit_state now r
          get_latest_zulip_update_announcements_level ids o.sent) := by
  cases hl : r.level with
  | none =>
    rw [run_realm_none doSend now sd imp r hl] at hok
    obtain ⟨hsent, ids, hst⟩ := commit_ok_inv _ _ _ _ _ _ hok
    exact Or.inr ⟨ids, Or.inl ⟨rfl, by rw [hst, hsent]⟩⟩
  | some l =>
    by_cases hlt : l < get_latest_zulip_update_announcements_level
    · by_cases hstream : r.hasStream = true
      · by_cases hzero : l = 0
        · subst hzero
          cases haud : get_level_none_to_initial_auditlog r with
          | none =>
            rw [run_realm_stream_no_audit doSend now sd imp r hl hstream haud]
              at hok
            cases hok
          | some ev =>
            by_cases hsd : sd = true
            · rw [run_realm_stream_zero_go doSend now sd imp r ev hl hstream
                haud (Or.inl hsd)] at hok
              unfold send_catch_up_messages at hok
              obtain ⟨hsent, ids, hst⟩ := commit_ok_inv _ _ _ _ _ _ hok
              exact Or.inr ⟨ids, Or.inr ⟨0, rfl, hlt, by rw [hst, hsent]⟩⟩
            · have hsd0 : sd = false := by revert hsd; cases sd <;> simp
              subst hsd0
              by_cases hw : now - ev.eventTime < 1 * 86400
              · rw [run_realm_stream_wait doSend now imp r ev hl hstream haud
                  hw] at hok
                injection hok with h
                exact Or.inl h.symm
              · rw [run_realm_stream_zero_go doSend now false imp r ev hl
                  hstream haud (Or.inr hw)] at hok
                unfold send_catch_up_messages at hok
                obtain ⟨hsent, ids, hst⟩ := commit_ok_inv _ _ _ _ _ _ hok
                exact Or.inr ⟨ids, Or.inr ⟨0, rfl, hlt, by rw [hst, hsent]⟩⟩
        · rw [run_realm_stream_pos doSend now sd imp r l hl hzero hlt hstream]
            at hok
          unfold send_catch_up_messages at hok
          obtain ⟨hsent, ids, hst⟩ := commit_ok_inv _ _ _ _ _ _ hok
          exact Or.inr ⟨ids, Or.inr ⟨l, rfl, hlt, by rw [hst, hsent]⟩⟩
      · have hs0 : r.hasStream = false := by
          revert hstream; cases r.hasStream <;> simp
        cases haud : get_level_none_to_initial_auditlog r with
        | none =>
          rw [run_realm_no_stream_no_audit doSend now sd imp r l hl hlt hs0
            haud] at hok
          obtain ⟨hsent, ids, hst⟩ := commit_ok_inv _ _ _ _ _ _ hok
          exact Or.inr ⟨ids, Or.inr ⟨l, rfl, hlt, by rw [hst, hsent]⟩⟩
        | some ev =>
          by_cases hw : now - ev.eventTime < 7 * 86400
          · rw [run_realm_no_stream_within_grace doSend now sd imp r l ev hl
              hlt hs0 haud hw] at hok
            injection hok with h
            exact Or.inl h.symm
          · rw [run_realm_no_stream_after_grace doSend now sd imp r l ev hl
              hlt hs0 haud hw] at hok
            obtain ⟨hsent, ids, hst⟩ := commit_ok_inv _ _ _ _ _ _ hok
            exact Or.inr ⟨ids, Or.inr ⟨l, rfl, hlt, by rw [hst, hsent]⟩⟩
    · rw [run_realm_stale doSend now sd imp r l hl (Nat.le_of_not_lt hlt)]
        at hok
      cases hok

/-! C6: monotonicity and boundedness of the stored level. -/

/-- Order on the stored level: null is below everything; a concrete level
may only stay or grow. -/
def level_le : Option Nat → Option Nat → Prop
  | none, _ => True
  | some l, b => ∃ l2, b = some l2 ∧ l ≤ l2

/-- The stored level, when set, is within the catalog bounds. -/
def level_bounded (r : RealmState) : Prop :=
  ∀ L, r.level = some L → L ≤ get_latest_zulip_update_announcements_level

/-- A committed transition is non-decreasing and bounded by the latest
level. -/
def audit_event_ok (ev : AuditEvent) : Prop :=
  (∀ l, ev.oldValue = some l → l ≤ ev.newValue) ∧
  ev.newValue ≤ get_latest_zulip_update_announcements_level

/-- The audit log only ever grows, by rows recording sound transitions. -/
def audit_extends (a b : RealmState) : Prop :=
  ∃ extra, b.auditLog = a.auditLog ++ extra ∧ ∀ ev ∈ extra, audit_event_ok ev

theorem level_le_refl (a : Option Nat) : level_le a a := by
  cases a with
  | none => trivial
  | some l => exact ⟨l, rfl, Nat.le_refl l⟩

theorem level_le_trans (a b c : Option Nat) (h1 : level_le a b)
    (h2 : level_le b c) : level_le a c := by
  cases a with
  | none => trivial
  | some l =>
    obtain ⟨l2, hb, hl2⟩ := h1
    subst hb
    obtain ⟨l3, hc, hl3⟩ := h2
    exact ⟨l3, hc, Nat.le_trans hl2 hl3⟩

theorem audit_extends_refl (a : RealmState) : audit_extends a a :=
  ⟨[], by simp, by simp⟩

theorem audit_extends_trans (a b c : RealmState) (h1 : audit_extends a b)
    (h2 : audit_extends b c) : audit_extends a c := by
  obtain ⟨e1, hb, he1⟩ := h1
  obtain ⟨e2, hc, he2⟩ := h2
  refine ⟨e1 ++ e2, by rw [hc, hb, List.append_assoc], ?_⟩
  intro ev hev
  rcases List.mem_append.mp hev with h | h
  · exact he1 ev h
  · exact he2 ev h

theorem commit_state_level (now : Int) (r : RealmState) (nl : Nat)
    (ids : List Nat) (msgs : List Message) :
    (commit_state now r nl ids msgs).level = some nl := rfl

theorem commit_state_auditLog (now : Int) (r : RealmState) (nl : Nat)
    (ids : List Nat) (msgs : List Message) :
    (commit_state now r nl ids msgs).auditLog =
      r.auditLog ++
        [{ oldValue := r.level, newValue := nl, eventTime := now,
           messageIds := ids }] := rfl

theorem commit_state_mono (now : Int) (r : RealmState) (nl : Nat)
    (ids : List Nat) (msgs : List Message)
    (hnl : nl ≤ get_latest_zulip_update_announcements_level)
    (hmono : ∀ l, r.level = some l → l ≤ nl) :
    level_le r.level (commit_state now r nl ids msgs).level ∧
    (level_bounded r → level_bounded (commit_state now r nl ids msgs)) ∧
    audit_extends r (commit_state now r nl ids msgs) := by
  refine ⟨?_, ?_, ?_⟩
  · cases hl : r.level with
    | none => trivial
    | some l =>
      exact ⟨nl, commit_state_level now r nl ids msgs, hmono l hl⟩
  · intro _ L hL
    rw [commit_state_level] at hL
    injection hL with h2
    subst h2
    exact hnl
  · refine ⟨[{ oldValue := r.level, newValue := nl, eventTime := now, messageIds := ids }], commit_state_auditLog now r nl ids msgs, ?_⟩
    intro ev hev
    simp only [List.mem_singleton] at hev
    subst hev
    exact ⟨fun l hl => hmono l hl, hnl⟩

theorem sweep_step_mono (doSend : Transport) (now : Int) (sd : Bool)
    (r : RealmState) :
    level_le r.level (sweep_step doSend now sd r).1.level ∧
    (level_bounded r → level_bounded (sweep_step doSend now sd r).1) ∧
    audit_extends r (sweep_step doSend now sd r).1 := by
  unfold sweep_step
  split_ifs with hb
  · cases hrun : send_zulip_update_announcements_to_realm doSend now sd false r
      with
    | error e =>
      exact ⟨level_le_refl _, fun h => h, audit_extends_refl _⟩
    | ok o =>
      show level_le r.level o.newState.level ∧
        (level_bounded r → level_bounded o.newState) ∧
        audit_extends r o.newState
      rcases run_ok_inv doSend now sd false r o hrun with hwait | ⟨ids, hcase⟩
      · rw [hwait]
        exact ⟨level_le_refl _, fun h => h, audit_extends_refl _⟩
      · rcases hcase with ⟨hnone, hst⟩ | ⟨l, hl, hlt, hst⟩
        · rw [hst]
          refine commit_state_mono now r _ ids o.sent ?_ ?_
          · have h0 : (if false = true then
                get_latest_zulip_update_announcements_level else 0) = 0 := rfl
            rw [h0]
            exact Nat.zero_le _
          · intro l2 h2
            rw [hnone] at h2
            cases h2
        · rw [hst]
          refine commit_state_mono now r _ ids o.sent (Nat.le_refl _) ?_
          intro l2 h2
          rw [hl] at h2
          injection h2 with h3
          subst h3
          exact Nat.le_of_lt hlt
  · exact ⟨level_le_refl _, fun h => h, audit_extends_refl _⟩


theorem apply_runs_realm_mono (runs : List RunParams) (r : RealmState) :
    level_le r.level (apply_runs_realm runs r).level ∧
    (level_bounded r → level_bounded (apply_runs_realm runs r)) ∧
    audit_extends r (apply_runs_realm runs r) := by
  induction runs generalizing r with
  | nil => exact ⟨level_le_refl _, fun h => h, audit_extends_refl _⟩
  | cons p ps ih =>
    have hstep := sweep_step_mono p.doSend p.now p.skipDelay r
    have hrest := ih ((sweep_step p.doSend p.now p.skipDelay r).1)
    have heq : apply_runs_realm (p :: ps) r =
        apply_runs_realm ps ((sweep_step p.doSend p.now p.skipDelay r).1) := rfl
    rw [heq]
    exact ⟨level_le_trans _ _ _ hstep.1 hrest.1,
      fun h => hrest.2.1 (hstep.2.1 h),
      audit_extends_trans _ _ _ hstep.2.2 hrest.2.2⟩

theorem apply_runs_eq_map (runs : List RunParams) (realms : List RealmState) :
    apply_runs runs realms = realms.map (apply_runs_realm runs) := by
  induction runs generalizing realms with
  | nil =>
    simp only [apply_runs, List.foldl_nil]
    exact (List.map_id realms).symm
  | cons p ps ih =>
    have h1 : apply_runs (p :: ps) realms =
        apply_runs ps
          (send_zulip_update_announcements p.doSend p.now p.skipDelay
            realms).1 := rfl
    have h2 : (send_zulip_update_announcements p.doSend p.now p.skipDelay
        realms).1 =
        realms.map (fun r => (sweep_step p.doSend p.now p.skipDelay r).1) := by
      unfold send_zulip_update_announcements
      rw [List.map_map]
      rfl
    rw [h1, h2, ih, List.map_map]
    rfl

/-- C6: across any sequence of rollout runs, each realm's stored level never
decreases (null counts as bottom), stays within `[0, latestLevel]` once it
satisfies that bound, and every committed audit row records a non-decreasing
transition bounded by the latest level; the full rollout acts on each realm
of the directory independently, by exactly this per-realm evolution. -/
theorem C6_level_monotonic (runs : List RunParams) (r : RealmState) :
    level_le r.level (apply_runs_realm runs r).level ∧
    (level_bounded r → level_bounded (apply_runs_realm runs r)) ∧
    audit_extends r (apply_runs_realm runs r) ∧
    (∀ realms, apply_runs runs realms = realms.map (apply_runs_realm runs)) := by
  have h := apply_runs_realm_mono runs r
  exact ⟨h.1, h.2.1, h.2.2, fun realms => apply_runs_eq_map runs realms⟩

/-- C6 witness: one ordinary run on the level-3 realm. -/
theorem C6_level_monotonic_witness :
    level_le exampleRealmAtThree.level
      (apply_runs_realm [{ doSend := okSend, now := 0, skipDelay := false }]
        exampleRealmAtThree).level ∧
    level_bounded
      (apply_runs_realm [{ doSend := okSend, now := 0, skipDelay := false }]
        exampleRealmAtThree) ∧
    audit_extends exampleRealmAtThree
      (apply_runs_realm [{ doSend := okSend, now := 0, skipDelay := false }]
        exampleRealmAtThree) ∧
    apply_runs [{ doSend := okSend, now := 0, skipDelay := false }]
        [exampleRealmAtThree] =
      [exampleRealmAtThree].map
        (apply_runs_realm [{ doSend := okSend, now := 0, skipDelay := false }]) := by
  have h := C6_level_monotonic
    [{ doSend := okSend, now := 0, skipDelay := false }] exampleRealmAtThree
  refine ⟨h.1, h.2.1 ?_, h.2.2.1, h.2.2.2 [exampleRealmAtThree]⟩
  intro L hL
  injection hL with h3
  subst h3
  decide

/-! C9: idempotence of a second, immediately following rollout. -/

theorem realm_is_behind_iff (threshold : Nat) (r : RealmState) :
    realm_is_behind threshold r = true ↔
      (r.deactivated = false ∧ r.isSystemBotRealm = false ∧
        (r.level = none ∨ ∃ l, r.level = some l ∧ l < threshold)) := by
  unfold realm_is_behind
  cases hl : r.level with
  | none => simp [hl]
  | some l =>
    simp only [hl, Bool.and_eq_true, Bool.not_eq_true', decide_eq_true_eq]
    constructor
    · rintro ⟨⟨h1, h2⟩, h3⟩
      exact ⟨h2, h3, Or.inr ⟨l, rfl, h1⟩⟩
    · rintro ⟨h2, h3, h4⟩
      rcases h4 with h4 | ⟨l2, hl2, h5⟩
      · cases h4
      · injection hl2 with h6
        subst h6
        exact ⟨⟨h5, h2⟩, h3⟩

theorem sweep_step_not_behind (doSend : Transport) (now : Int) (sd : Bool)
    (r : RealmState)
    (h : realm_is_behind get_latest_zulip_update_announcements_level r
      = false) :
    sweep_step doSend now sd r = (r, []) := by
  unfold sweep_step
  rw [h]
  rfl

theorem sweep_step_run_error (doSend : Transport) (now : Int) (sd : Bool)
    (r : RealmState) (e : RunError)
    (h : send_zulip_update_announcements_to_realm doSend now sd false r =
      .error e) :
    sweep_step doSend now sd r = (r, []) := by
  unfold sweep_step
  split_ifs with hb
  · rw [h]
  · rfl

theorem sweep_step_run_ok (doSend : Transport) (now : Int) (sd : Bool)
    (r : RealmState) (o : RunOutcome)
    (hb : realm_is_behind get_latest_zulip_update_announcements_level r
      = true)
    (h : send_zulip_update_announcements_to_realm doSend now sd false r =
      .ok o) :
    sweep_step doSend now sd r = (o.newState, o.sent) := by
  unfold sweep_step
  rw [hb, h]
  rfl

theorem get_audit_commit_state (now : Int) (r : RealmState) (nl : Nat)
    (ids : List Nat) (msgs : List Message)
    (hwf : ∀ ev ∈ r.auditLog, ev.oldValue.isNone = false)
    (hol : r.level = none) :
    get_level_none_to_initial_auditlog (commit_state now r nl ids msgs) =
      some { oldValue := r.level, newValue := nl, eventTime := now, messageIds := ids } := by
  unfold get_level_none_to_initial_auditlog
  rw [commit_state_auditLog, List.find?_append]
  have h1 : r.auditLog.find? (fun ev => ev.oldValue.isNone) = none := by
    rw [List.find?_eq_none]
    intro x hx
    rw [hwf x hx]
    simp
  rw [h1]
  simp [hol]

theorem sweep_step_idem (doSend : Transport) (now : Int) (r : RealmState)
    (hwf : r.level = none →
      ∀ ev ∈ r.auditLog, ev.oldValue.isNone = false) :
    sweep_step doSend now false (sweep_step doSend now false r).1 =
      ((sweep_step doSend now false r).1, []) := by
  by_cases hb : realm_is_behind get_latest_zulip_update_announcements_level r
      = true
  · cases hrun : send_zulip_update_announcements_to_realm doSend now false
        false r with
    | error e =>
      rw [sweep_step_run_error doSend now false r e hrun]
      exact sweep_step_run_error doSend now false r e hrun
    | ok o =>
      rw [sweep_step_run_ok doSend now false r o hb hrun]
      rcases run_ok_inv doSend now false false r o hrun with hwait | ⟨ids, hcase⟩
      · have ho : o.newState = r := by rw [hwait]
        rw [ho]
        have hrun2 : send_zulip_update_announcements_to_realm doSend now false
            false r = .ok { newState := r, sent := [] } := by rw [hrun, hwait]
        rw [sweep_step_run_ok doSend now false r _ hb hrun2]
      · obtain ⟨hdeact, hsys, _⟩ := (realm_is_behind_iff _ _).mp hb
        rcases hcase with ⟨hnone, hst⟩ | ⟨l, hl, hlt, hst⟩
        · have h0 : (if false = true then
              get_latest_zulip_update_announcements_level else 0) = 0 := rfl
          rw [h0] at hst
          rw [hst]
          have hsb : realm_is_behind get_latest_zulip_update_announcements_level
              (commit_state now r 0 ids o.sent) = true := by
            refine (realm_is_behind_iff _ _).mpr ⟨hdeact, hsys, Or.inr ⟨0, ?_, ?_⟩⟩
            · exact commit_state_level now r 0 ids o.sent
            · rw [latest_level_eq]
              omega
          have haud := get_audit_commit_state now r 0 ids o.sent (hwf hnone) hnone
          have hw0 : now - now < 1 * 86400 := by omega
          cases hstream : r.hasStream with
          | true =>
            have hrun2 : send_zulip_update_announcements_to_realm doSend now
                false false (commit_state now r 0 ids o.sent) =
                .ok { newState := commit_state now r 0 ids o.sent, sent := [] } :=
              run_realm_stream_wait doSend now false
                (commit_state now r 0 ids o.sent)
                { oldValue := r.level, newValue := 0, eventTime := now, messageIds := ids }
                (commit_state_level now r 0 ids o.sent) hstream haud hw0
            rw [sweep_step_run_ok doSend now false _ _ hsb hrun2]
          | false =>
            have hw7 : now - now < 7 * 86400 := by omega
            have hrun2 : send_zulip_update_announcements_to_realm doSend now
                false false (commit_state now r 0 ids o.sent) =
                .ok { newState := commit_state now r 0 ids o.sent, sent := [] } :=
              run_realm_no_stream_within_grace doSend now false false
                (commit_state now r 0 ids o.sent) 0
                { oldValue := r.level, newValue := 0, eventTime := now, messageIds := ids }
                (commit_state_level now r 0 ids o.sent)
                (by rw [latest_level_eq]; omega) hstream haud hw7
            rw [sweep_step_run_ok doSend now false _ _ hsb hrun2]
        · rw [hst]
          have hnb : realm_is_behind get_latest_zulip_update_announcements_level
              (commit_state now r get_latest_zulip_update_announcements_level
                ids o.sent) = false := by
            by_cases hh : realm_is_behind get_latest_zulip_update_announcements_level
                (commit_state now r get_latest_zulip_update_announcements_level
                  ids o.sent) = true
            · obtain ⟨_, _, hlev⟩ := (realm_is_behind_iff _ _).mp hh
              rcases hlev with hlev | ⟨l2, hl2, hlt2⟩
              · rw [commit_state_level] at hlev
                cases hlev
              · rw [commit_state_level] at hl2
                injection hl2 with h3
                subst h3
                exact absurd hlt2 (Nat.lt_irrefl _)
            · revert hh
              cases realm_is_behind get_latest_zulip_update_announcements_level
                (commit_state now r get_latest_zulip_update_announcements_level
                  ids o.sent) <;> simp
          exact sweep_step_not_behind doSend now false _ hnb
  · have hb' : realm_is_behind get_latest_zulip_update_announcements_level r
        = false := by
      revert hb
      cases realm_is_behind get_latest_zulip_update_announcements_level r <;>
        simp
    rw [sweep_step_not_behind doSend now false r hb']
    exact sweep_step_not_behind doSend now false r hb'

theorem sweep_twice_noop (doSend : Transport) (now : Int)
    (realms : List RealmState)
    (h : ∀ r ∈ realms, sweep_step doSend now false
      ((sweep_step doSend now false r).1) =
      ((sweep_step doSend now false r).1, [])) :
    send_zulip_update_announcements doSend now false
        (send_zulip_update_announcements doSend now false realms).1 =
      ((send_zulip_update_announcements doSend now false realms).1, []) := by
  induction realms with
  | nil => rfl
  | cons r rs ih =>
    have hr := h r (List.mem_cons_self r rs)
    have hrs := ih (fun x hx => h x (List.mem_cons_of_mem r hx))
    unfold send_zulip_update_announcements at hrs ⊢
    simp only [List.map_cons, List.flatten_cons] at hrs ⊢
    rw [hr]
    rw [Prod.mk.injEq] at hrs ⊢
    exact ⟨by rw [hrs.1], by simpa using hrs.2⟩

/-- C9 (amended): with `skipDelay = false`, and from any directory state in
which never-initialized realms have no onboarding audit row yet (true of
every state the system itself produces), running the rollout twice in
immediate succession sends no additional messages and writes no additional
audit rows on the second run.  With `skipDelay = true` the property fails:
see the counterexample, where a never-initialized realm with a configured
stream is onboarded to level 0 by the first run and then — the 24-hour wait
being skipped — receives its whole catch-up batch on the second run. -/
theorem C9_second_run_noop (doSend : Transport) (now : Int)
    (realms : List RealmState)
    (hwf : ∀ r ∈ realms, r.level = none →
      ∀ ev ∈ r.auditLog, ev.oldValue.isNone = false) :
    send_zulip_update_announcements doSend now false
        (send_zulip_update_announcements doSend now false realms).1 =
      ((send_zulip_update_announcements doSend now false realms).1, []) :=
  sweep_twice_noop doSend now realms
    (fun r hr => sweep_step_idem doSend now r (hwf r hr))

/-- C9 witness: the second `skipDelay = false` sweep over a directory with
one never-initialized realm changes nothing and sends nothing. -/
theorem C9_second_run_noop_witness :
    send_zulip_update_announcements okSend 0 false
        (send_zulip_update_announcements okSend 0 false
          [exampleRealmUninitialized]).1 =
      ((send_zulip_update_announcements okSend 0 false
          [exampleRealmUninitialized]).1, []) :=
  C9_second_run_noop okSend 0 [exampleRealmUninitialized] (by decide)

/-- The onboarding audit row written by the first `skipDelay = true` sweep
on the never-initialized realm with a stream. -/
def exampleSecondOnboardEvent : AuditEvent :=
  { oldValue := none, newValue := 0, eventTime := 0, messageIds := [0] }

/-- The realm state after the first `skipDelay = true` sweep. -/
def exampleSecondRunState : RealmState :=
  { level := some 0, hasStream := true, topicHasMessages := false,
    auditLog := [exampleSecondOnboardEvent], deactivated := false,
    isSystemBotRealm := false }

/-- The audit row written by the second `skipDelay = true` sweep. -/
def exampleSecondCommitEvent : AuditEvent :=
  { oldValue := some 0, newValue := 6, eventTime := 0,
    messageIds := [0, 1, 2, 3, 4, 5, 6] }

/-- The realm state after the second `skipDelay = true` sweep. -/
def exampleFinalState : RealmState :=
  { level := some 6, hasStream := true, topicHasMessages := true,
    auditLog := [exampleSecondOnboardEvent, exampleSecondCommitEvent],
    deactivated := false, isSystemBotRealm := false }

/-- The outcome of the second `skipDelay = true` run on the onboarded
realm. -/
def exampleSecondRunOutcome : RunOutcome :=
  { newState := exampleFinalState,
    sent := [Message.intro, Message.announcement 1, Message.announcement 2,
      Message.announcement 3, Message.announcement 4, Message.announcement 5,
      Message.announcement 6] }

/-- C9: the claim asserts idempotence for both values of `skipDelay`.  It
fails for `skipDelay = true`: the first sweep onboards the never-initialized
realm to level 0 (one admin group DM), and the second sweep — the 24-hour
delay being skipped — sends the introductory message plus all six catalog
messages and writes another audit row. -/
theorem C9_counterexample :
    (send_zulip_update_announcements okSend 0 true
        (send_zulip_update_announcements okSend 0 true
          [exampleRealmUninitialized]).1).2 =
      [Message.intro, Message.announcement 1, Message.announcement 2,
        Message.announcement 3, Message.announcement 4,
        Message.announcement 5, Message.announcement 6] := by
  have h1 : (send_zulip_update_announcements okSend 0 true
      [exampleRealmUninitialized]).1 = [exampleSecondRunState] := rfl
  rw [h1]
  have hp : internal_prep_zulip_update_announcements_stream_messages 0
      get_latest_zulip_update_announcements_level =
      [Message.announcement 1, Message.announcement 2, Message.announcement 3,
        Message.announcement 4, Message.announcement 5,
        Message.announcement 6] := by
    rw [prep_stream_messages_eq_range]
    rfl
  have hrun2 : send_zulip_update_announcements_to_realm okSend 0 true false
      exampleSecondRunState = .ok exampleSecondRunOutcome := by
    rw [run_realm_stream_zero_go okSend 0 true false exampleSecondRunState
      exampleSecondOnboardEvent rfl rfl rfl (Or.inl rfl)]
    unfold send_catch_up_messages
    rw [hp]
    rfl
  have hstep := sweep_step_run_ok okSend 0 true exampleSecondRunState _ rfl
    hrun2
  unfold send_zulip_update_announcements
  simp only [List.map_cons, List.map_nil, List.flatten_cons, List.flatten_nil]
  rw [hstep]
  rfl

end ZulipUpdates
